import Mathlib

/-!
Shallow embedding of the SCUBA-2 integration-time calculator
(lib/jcmt_itc_scuba2/itc.py and lib/jcmt_itc_scuba2/data.py).

Python floats are modelled as real numbers.  Fallible Python code is
modelled in an error monad: `Except PyErr`.  Python raises
`ZeroDivisionError` on division by zero and `ValueError` with message
"math domain error" on the square root of a negative number; both are
modelled as explicit checks in `pydiv` and `pysqrt`.  Dictionary access
that may raise `KeyError`, and attribute access on a namedtuple lacking
the attribute (`AttributeError`), are likewise modelled as error values.
-/

namespace SCUBA2

/-- Messages carried by the `SCUBA2ITCError` exception class of itc.py. -/
inductive ITCMsg where
  | unknownFilter : ℕ → ITCMsg
  | unknownMode : String → ITCMsg
  | paramsUnavailable : ITCMsg
  | divByZero : ITCMsg
  | negSqrt : ITCMsg
deriving DecidableEq

/-- Python exceptions that the embedded code can raise. -/
inductive PyErr where
  | zeroDivision : PyErr
  | mathDomain : PyErr
  | keyError : ℕ → PyErr
  | attributeError : PyErr
  | itcError : ITCMsg → PyErr
deriving DecidableEq

/-- data.py ITCParam namedtuple: fields (tA, tB, c); c is None for the
poldaisy mode and is never read by itc.py. -/
structure ITCParam where
  tA : ℝ
  tB : ℝ
  c : Option ℝ

/-- data.py SCUBA2Mode namedtuple: fields (description, param_850,
param_450, block_min, pix_850, pix_450, match_filt). -/
structure SCUBA2Mode where
  description : String
  param_850 : Option ITCParam
  param_450 : Option ITCParam
  block_min : ℝ
  pix_850 : ℝ
  pix_450 : ℝ
  match_filt : Bool

/-- Tau relation record as used by itc.py, which reads attributes a, b
and c.  The namedtuple declared in data.py has only the fields (a, b);
a record built from it therefore carries `c = none`, and reading the c
attribute of such a record raises `AttributeError` in Python. -/
structure TauRelation where
  a : ℝ
  b : ℝ
  c : Option ℝ

/-- Python division: raises ZeroDivisionError on a zero denominator. -/
noncomputable def pydiv (x y : ℝ) : Except PyErr ℝ :=
  if y = 0 then .error .zeroDivision else .ok (x / y)

/-- Python math.sqrt: raises ValueError (math domain error) on a
negative argument. -/
noncomputable def pysqrt (x : ℝ) : Except PyErr ℝ :=
  if x < 0 then .error .mathDomain else .ok (Real.sqrt x)

/-- Python dict subscript d[k] for the integer-keyed dictionaries
(transmission by filter, sampling factors by filter): KeyError when the
key is absent. -/
def dictGet (d : List (ℕ × ℝ)) (k : ℕ) : Except PyErr ℝ :=
  match List.lookup k d with
  | some v => .ok v
  | none => .error (.keyError k)

/-- Python dict assignment d[k] = v for the string-keyed "extra" output
dictionary: replaces the value in place when the key exists, otherwise
appends the new key at the end (insertion order). -/
def dictSet (d : List (String × ℝ)) (k : String) (v : ℝ) : List (String × ℝ) :=
  if (List.lookup k d).isSome then
    d.map (fun p => if p.1 = k then (k, v) else p)
  else
    d ++ [(k, v)]

/-- data.py scuba2_modes: the default observing-mode table, in
declaration order. -/
def scuba2_modes : List (String × SCUBA2Mode) :=
  [("daisy",
    ⟨"Daisy: ~3 arcmin map",
     some ⟨189, -48, some 0.248312⟩, some ⟨689, -118, some 0.062124⟩,
     40, 6.5, 4.0, true⟩),
   ("pong900",
    ⟨"Pong 900: 15 arcmin map",
     some ⟨407, -104, some 0.053870⟩, some ⟨1483, -254, some 0.013420⟩,
     40, 6.5, 4.0, true⟩),
   ("pong1800",
    ⟨"Pong 1800: 30 arcmin map",
     some ⟨795, -203, some 0.014113⟩, some ⟨2904, -497, some 0.003500⟩,
     40, 6.5, 4.0, true⟩),
   ("pong3600",
    ⟨"Pong 3600: 1 degree map",
     some ⟨1675, -428, some 0.003180⟩, some ⟨6317, -1082, some 0.000550⟩,
     40, 6.5, 4.0, true⟩),
   ("pong7200",
    ⟨"Pong 7200: 2 degree map",
     some ⟨3354, -857, some 0.000794⟩, some ⟨12837, -2200, some 0.00017919⟩,
     40, 6.5, 4.0, true⟩),
   ("poldaisy",
    ⟨"POL-2 daisy (~3 arcmin)",
     some ⟨763.2, -64.0, none⟩, some ⟨4626.8, -411.54, none⟩,
     40, 12.0, 12.0, false⟩)]

/-- data.py scuba2_tau_relations.  The namedtuple there has only the
fields (a, b) — its comment documents tau_flt = A * (tau_225 + B) — so
the c attribute read by itc.py is absent, modelled as `none`. -/
def scuba2_tau_relations : List (ℕ × TauRelation) :=
  [(850, ⟨4.6, -0.00435, none⟩),
   (450, ⟨26, -0.01196, none⟩)]

/-- The state of a SCUBA2ITC object: mode table, tau-relation table and
overhead unit (seconds), as set by the constructor. -/
structure SCUBA2ITC where
  data : List (String × SCUBA2Mode)
  tau_relations : List (ℕ × TauRelation)
  overhead : ℝ

/-- A SCUBA2ITC constructed with all defaults: default mode table,
default tau relations, overhead = 90.0 seconds. -/
def defaultITC : SCUBA2ITC := ⟨scuba2_modes, scuba2_tau_relations, 90.0⟩

/-- itc.py _get_param: look up the mode, select the parameter record for
the filter (850 or 450), raise for an unknown mode, an unknown filter,
or a parameter record that is None. -/
def _get_param (itc : SCUBA2ITC) (mode : String) (filter_ : ℕ) :
    Except PyErr ITCParam :=
  match List.lookup mode itc.data with
  | none => .error (.itcError (.unknownMode mode))
  | some mode_info =>
    if filter_ = 850 then
      match mode_info.param_850 with
      | none => .error (.itcError .paramsUnavailable)
      | some param => .ok param
    else if filter_ = 450 then
      match mode_info.param_450 with
      | none => .error (.itcError .paramsUnavailable)
      | some param => .ok param
    else
      .error (.itcError (.unknownFilter filter_))

/-- itc.py _calculate_time_on_source:
sqrttime = (param.tA / transmission + param.tB) / rms;
return sqrttime * sqrttime / factor. -/
noncomputable def _calculate_time_on_source (itc : SCUBA2ITC) (mode : String)
    (filter_ : ℕ) (transmission factor rms : ℝ) : Except PyErr ℝ := do
  let param ← _get_param itc mode filter_
  let q ← pydiv param.tA transmission
  let sqrttime ← pydiv (q + param.tB) rms
  pydiv (sqrttime * sqrttime) factor

/-- itc.py _calculate_rms_for_time_on_source:
return ((param.tA / transmission) + param.tB) / sqrt(factor * time). -/
noncomputable def _calculate_rms_for_time_on_source (itc : SCUBA2ITC)
    (mode : String) (filter_ : ℕ) (transmission factor time : ℝ) :
    Except PyErr ℝ := do
  let param ← _get_param itc mode filter_
  let q ← pydiv param.tA transmission
  let s ← pysqrt (factor * time)
  pydiv (q + param.tB) s

/-- itc.py _calculate_opacity: look up the tau relation for the filter
(KeyError becomes the unknown-filter SCUBA2ITCError), then return
a * (tau_225 + b + c * sqrt(tau_225)).  Python evaluates the attribute
access tau_relation.c before calling sqrt, so a missing c attribute
raises AttributeError even for a negative tau_225. -/
noncomputable def _calculate_opacity (itc : SCUBA2ITC) (filter_ : ℕ)
    (tau_225 : ℝ) : Except PyErr ℝ :=
  match List.lookup filter_ itc.tau_relations with
  | none => .error (.itcError (.unknownFilter filter_))
  | some tau_relation =>
    match tau_relation.c with
    | none => .error .attributeError
    | some c =>
      if tau_225 < 0 then .error .mathDomain
      else .ok (tau_relation.a * (tau_225 + tau_relation.b + c * Real.sqrt tau_225))

/-- itc.py _calculate_transmission: exp(-1.0 * airmass * tau). -/
noncomputable def _calculate_transmission (airmass tau : ℝ) : ℝ :=
  Real.exp (-1.0 * airmass * tau)

/-- itc.py _calculate_opacity_and_transmission: for each filter in
(850, 450) compute opacity and transmission, recording both in the
tau / transmission dictionaries and the extra output dictionary. -/
noncomputable def _calculate_opacity_and_transmission (itc : SCUBA2ITC)
    (tau_225 airmass : ℝ) :
    Except PyErr (List (ℕ × ℝ) × List (ℕ × ℝ) × List (String × ℝ)) := do
  let tau850 ← _calculate_opacity itc 850 tau_225
  let trans850 := _calculate_transmission airmass tau850
  let tau450 ← _calculate_opacity itc 450 tau_225
  let trans450 := _calculate_transmission airmass tau450
  return ([(850, tau850), (450, tau450)],
          [(850, trans850), (450, trans450)],
          [("tau_850", tau850), ("trans_850", trans850),
           ("tau_450", tau450), ("trans_450", trans450)])

/-- itc.py _estimate_overhead: unknown mode raises; block_sec is
block_min * 60.0, extended by one overhead unit when from_total; the
overhead is overhead * ceil(time / block_sec). -/
noncomputable def _estimate_overhead (itc : SCUBA2ITC) (mode : String)
    (time : ℝ) (from_total : Bool) : Except PyErr ℝ := do
  match List.lookup mode itc.data with
  | none => .error (.itcError (.unknownMode mode))
  | some mode_info =>
    let block_sec := mode_info.block_min * 60.0
    let block_sec := if from_total then block_sec + itc.overhead else block_sec
    let q ← pydiv time block_sec
    return itc.overhead * (⌈q⌉ : ℝ)

/-- The alternate filter: 850 if the requested filter is 450, else 450
(itc.py line: filter_alt = 850 if filter_ == 450 else 450). -/
def altFilter (filter_ : ℕ) : ℕ := if filter_ = 450 then 850 else 450

/-- The right-hand side of extra['rms_alt'] = ... in the alternate-band
diagnostic block: transmission[filter_alt] and sampling_factors
[filter_alt] subscripts (each may raise KeyError), then the private rms
computation. -/
noncomputable def altRmsCalc (itc : SCUBA2ITC) (mode : String) (filter_ : ℕ)
    (transmission sampling_factors : List (ℕ × ℝ)) (time_src : ℝ) :
    Except PyErr ℝ := do
  let trans_alt ← dictGet transmission (altFilter filter_)
  let factor_alt ← dictGet sampling_factors (altFilter filter_)
  _calculate_rms_for_time_on_source itc mode (altFilter filter_) trans_alt
    factor_alt time_src

/-- The alternate-band diagnostic block shared verbatim by
calculate_total_time and calculate_rms_for_time_on_source:
extra['wl_alt'] = filter_alt is assigned first; then the alternate rms
is attempted inside a bare try/except, so on any failure the dictionary
keeps wl_alt and simply never receives rms_alt. -/
noncomputable def addAltRms (itc : SCUBA2ITC) (mode : String) (filter_ : ℕ)
    (transmission sampling_factors : List (ℕ × ℝ)) (time_src : ℝ)
    (extra : List (String × ℝ)) : List (String × ℝ) :=
  let extra1 := dictSet extra "wl_alt" ((altFilter filter_ : ℕ) : ℝ)
  match altRmsCalc itc mode filter_ transmission sampling_factors time_src with
  | .error _ => extra1
  | .ok r => dictSet extra1 "rms_alt" r

/-- The except clauses wrapping the bodies of calculate_total_time and
calculate_rms_for_time_on_source: ZeroDivisionError and the math-domain
ValueError are re-raised as SCUBA2ITCError; everything else propagates
unchanged. -/
def handleCalcErrors {α : Type} (r : Except PyErr α) : Except PyErr α :=
  match r with
  | .error .zeroDivision => .error (.itcError .divByZero)
  | .error .mathDomain => .error (.itcError .negSqrt)
  | other => other

/-- The try body of itc.py calculate_total_time: opacity and
transmission at both filters, time on source for the requested filter,
plus overhead; with extra output also time_src and the best-effort
alternate-filter rms. -/
noncomputable def calculate_total_time_body (itc : SCUBA2ITC) (mode : String)
    (filter_ : ℕ) (tau_225 airmass : ℝ) (sampling_factors : List (ℕ × ℝ))
    (rms : ℝ) (with_extra : Bool) :
    Except PyErr (ℝ × Option (List (String × ℝ))) := do
  let (_tau, transmission, extra) ←
    _calculate_opacity_and_transmission itc tau_225 airmass
  let trans_f ← dictGet transmission filter_
  let factor_f ← dictGet sampling_factors filter_
  let time_src ← _calculate_time_on_source itc mode filter_ trans_f factor_f rms
  let oh ← _estimate_overhead itc mode time_src false
  let time_tot := time_src + oh
  if with_extra then
    let extra := dictSet extra "time_src" time_src
    return (time_tot,
      some (addAltRms itc mode filter_ transmission sampling_factors time_src extra))
  else
    return (time_tot, none)

/-- itc.py calculate_total_time: the body under the try, with the
except clauses of handleCalcErrors. -/
noncomputable def calculate_total_time (itc : SCUBA2ITC) (mode : String)
    (filter_ : ℕ) (tau_225 airmass : ℝ) (sampling_factors : List (ℕ × ℝ))
    (rms : ℝ) (with_extra : Bool) :
    Except PyErr (ℝ × Option (List (String × ℝ))) :=
  handleCalcErrors
    (calculate_total_time_body itc mode filter_ tau_225 airmass
      sampling_factors rms with_extra)

/-- The try body of itc.py calculate_rms_for_time_on_source: opacity and
transmission at both filters, rms for the requested filter; with extra
output also the best-effort alternate-filter rms (no time_src entry is
made here). -/
noncomputable def calculate_rms_for_time_on_source_body (itc : SCUBA2ITC)
    (mode : String) (filter_ : ℕ) (tau_225 airmass : ℝ)
    (sampling_factors : List (ℕ × ℝ)) (time_src : ℝ) (with_extra : Bool) :
    Except PyErr (ℝ × Option (List (String × ℝ))) := do
  let (_tau, transmission, extra) ←
    _calculate_opacity_and_transmission itc tau_225 airmass
  let trans_f ← dictGet transmission filter_
  let factor_f ← dictGet sampling_factors filter_
  let rms ← _calculate_rms_for_time_on_source itc mode filter_ trans_f
    factor_f time_src
  if with_extra then
    return (rms,
      some (addAltRms itc mode filter_ transmission sampling_factors time_src extra))
  else
    return (rms, none)

/-- itc.py calculate_rms_for_time_on_source: the body under the try,
with the except clauses of handleCalcErrors. -/
noncomputable def calculate_rms_for_time_on_source (itc : SCUBA2ITC)
    (mode : String) (filter_ : ℕ) (tau_225 airmass : ℝ)
    (sampling_factors : List (ℕ × ℝ)) (time_src : ℝ) (with_extra : Bool) :
    Except PyErr (ℝ × Option (List (String × ℝ))) :=
  handleCalcErrors
    (calculate_rms_for_time_on_source_body itc mode filter_ tau_225 airmass
      sampling_factors time_src with_extra)

/-- itc.py calculate_rms_for_total_time: subtract the from_total
overhead estimate from the total time, delegate to
calculate_rms_for_time_on_source on the recovered on-source time, and
with extra output record time_src in the returned extra dictionary.
(With extra output the delegate always returns a dictionary; the final
catch-all match arm is unreachable.)  There is no try/except here; any
exception propagates. -/
noncomputable def calculate_rms_for_total_time (itc : SCUBA2ITC) (mode : String)
    (filter_ : ℕ) (tau_225 airmass : ℝ) (sampling_factors : List (ℕ × ℝ))
    (time_tot : ℝ) (with_extra : Bool) :
    Except PyErr (ℝ × Option (List (String × ℝ))) := do
  let oh ← _estimate_overhead itc mode time_tot true
  let time_src := time_tot - oh
  let result ← calculate_rms_for_time_on_source itc mode filter_ tau_225
    airmass sampling_factors time_src with_extra
  if with_extra then
    match result with
    | (rms, some extra) => return (rms, some (dictSet extra "time_src" time_src))
    | r => return r
  else
    return result

/-- A synthetic timing parameter record (the constructor documents that
alternate tables may be supplied, intended for testing). -/
def testParam : ITCParam := ⟨1, 0, none⟩

/-- A synthetic observing mode with both parameter records defined. -/
def testMode : SCUBA2Mode := ⟨"Test mode", some testParam, some testParam, 40, 6.5, 4.0, true⟩

/-- A synthetic tau relation whose c coefficient is present (and zero),
so that the opacity computation can proceed. -/
def testTau : TauRelation := ⟨1, 0, some 0⟩

/-- An ITC built from the synthetic tables. -/
def testITC : SCUBA2ITC := ⟨[("m", testMode)], [(850, testTau), (450, testTau)], 90⟩

/-- A synthetic polarimetry-like mode lacking the 450 parameter record. -/
def polTestMode : SCUBA2Mode :=
  ⟨"POL test", some ⟨763.2, -64.0, none⟩, none, 40, 12.0, 12.0, false⟩

/-- An ITC whose mode table contains a mode without 450 timing
parameters. -/
def polTestITC : SCUBA2ITC := ⟨[("pol", polTestMode)], scuba2_tau_relations, 90.0⟩

/-! ## Helper lemmas -/

theorem ebind_ok {α β : Type} (x : α) (f : α → Except PyErr β) :
    (Except.ok x >>= f) = f x := rfl

theorem ebind_err {α β : Type} (e : PyErr) (f : α → Except PyErr β) :
    ((Except.error e : Except PyErr α) >>= f) = Except.error e := rfl

theorem pydiv_ok (a b : ℝ) (h : b ≠ 0) : pydiv a b = .ok (a / b) := by
  simp [pydiv, h]

theorem pysqrt_ok (x : ℝ) (h : 0 ≤ x) : pysqrt x = .ok (Real.sqrt x) := by
  simp [pysqrt, not_lt.mpr h]

theorem handleCalcErrors_ok {α : Type} (x : Except PyErr α) (y : α) :
    handleCalcErrors x = .ok y ↔ x = .ok y := by
  cases x with
  | ok a => simp [handleCalcErrors]
  | error e => cases e <;> simp [handleCalcErrors]

/-! ## Claims -/

/-- C1: for every mode and filter with defined timing parameters and
every nonzero transmission, the time-on-source computation returns
((tA/transmission + tB) / rms)^2 / factor for nonzero factor and rms,
and for every factor*time > 0 the rms computation returns
(tA/transmission + tB) / sqrt(factor*time). -/
theorem C1_time_and_rms_formula (itc : SCUBA2ITC) (mode : String) (filter_ : ℕ)
    (p : ITCParam) (transmission factor rms time : ℝ)
    (hp : _get_param itc mode filter_ = .ok p)
    (htr : transmission ≠ 0) :
    (rms ≠ 0 → factor ≠ 0 →
      _calculate_time_on_source itc mode filter_ transmission factor rms =
        .ok (((p.tA / transmission + p.tB) / rms) ^ 2 / factor)) ∧
    (0 < factor * time →
      _calculate_rms_for_time_on_source itc mode filter_ transmission factor time =
        .ok ((p.tA / transmission + p.tB) / Real.sqrt (factor * time))) := by
  constructor
  · intro hrms hfac
    unfold _calculate_time_on_source
    rw [hp, ebind_ok, pydiv_ok _ _ htr, ebind_ok, pydiv_ok _ _ hrms, ebind_ok,
      pydiv_ok _ _ hfac, pow_two]
  · intro hft
    unfold _calculate_rms_for_time_on_source
    rw [hp, ebind_ok, pydiv_ok _ _ htr, ebind_ok, pysqrt_ok _ hft.le, ebind_ok,
      pydiv_ok _ _ (Real.sqrt_ne_zero'.mpr hft)]

/-- C1 witness: daisy mode at the 450 filter with transmission, factor,
rms and time all equal to one. -/
theorem C1_witness :
    _calculate_time_on_source defaultITC "daisy" 450 1 1 1 =
      .ok (((689 / 1 + -118) / 1) ^ 2 / 1) ∧
    _calculate_rms_for_time_on_source defaultITC "daisy" 450 1 1 1 =
      .ok ((689 / 1 + -118) / Real.sqrt (1 * 1)) := by
  have h := C1_time_and_rms_formula defaultITC "daisy" 450
    ⟨689, -118, some 0.062124⟩ 1 1 1 1 rfl one_ne_zero
  exact ⟨h.1 one_ne_zero one_ne_zero, h.2 (by norm_num)⟩

/-- C2: with the default tables of data.py the opacity computation does
not return a*(tau_225 + b + c*sqrt(tau_225)) for the recognized filters:
the TauRelation namedtuple of data.py has only the fields (a, b), so the
c attribute read by itc.py is missing and both recognized filters raise
AttributeError; an unrecognized filter does raise the unknown-filter
error. -/
theorem C2_opacity_attribute_error :
    _calculate_opacity defaultITC 850 0.05 = .error .attributeError ∧
    _calculate_opacity defaultITC 450 0.05 = .error .attributeError ∧
    _calculate_opacity defaultITC 1100 0.05 =
      .error (.itcError (.unknownFilter 1100)) :=
  ⟨rfl, rfl, rfl⟩

/-- C3: feeding the result of the time-on-source computation back into
the rms computation returns the original rms exactly, for positive
transmission, factor and rms with tA/transmission + tB positive. -/
theorem C3_roundtrip (itc : SCUBA2ITC) (mode : String) (filter_ : ℕ)
    (p : ITCParam) (transmission factor rms : ℝ)
    (hp : _get_param itc mode filter_ = .ok p)
    (htr : 0 < transmission) (hfac : 0 < factor) (hrms : 0 < rms)
    (hN : 0 < p.tA / transmission + p.tB) :
    (_calculate_time_on_source itc mode filter_ transmission factor rms >>=
      fun time =>
        _calculate_rms_for_time_on_source itc mode filter_ transmission factor time)
      = .ok rms := by
  have hS : 0 < p.tA / transmission + p.tB := hN
  have hq : 0 < (p.tA / transmission + p.tB) / rms := div_pos hN hrms
  unfold _calculate_time_on_source _calculate_rms_for_time_on_source
  rw [hp, ebind_ok, pydiv_ok _ _ (ne_of_gt htr), ebind_ok,
    pydiv_ok _ _ (ne_of_gt hrms), ebind_ok, pydiv_ok _ _ (ne_of_gt hfac),
    ebind_ok, ebind_ok, pydiv_ok _ _ (ne_of_gt htr), ebind_ok]
  have harg : factor *
      ((p.tA / transmission + p.tB) / rms * ((p.tA / transmission + p.tB) / rms)
        / factor) =
      (p.tA / transmission + p.tB) / rms * ((p.tA / transmission + p.tB) / rms) := by
    rw [mul_comm, div_mul_cancel₀ _ (ne_of_gt hfac)]
  rw [harg, pysqrt_ok _ (le_of_lt (mul_pos hq hq)),
    ebind_ok, Real.sqrt_mul_self hq.le, pydiv_ok _ _ (ne_of_gt hq)]
  congr 1
  rw [div_div_eq_mul_div, mul_comm, mul_div_assoc,
    div_self (ne_of_gt hN), mul_one]

/-- C3 witness: daisy mode at the 450 filter with transmission, factor
and rms equal to one, where tA/transmission + tB = 571 > 0. -/
theorem C3_witness :
    (_calculate_time_on_source defaultITC "daisy" 450 1 1 1 >>=
      fun time =>
        _calculate_rms_for_time_on_source defaultITC "daisy" 450 1 1 time)
      = .ok 1 :=
  C3_roundtrip defaultITC "daisy" 450 ⟨689, -118, some 0.062124⟩ 1 1 1 rfl
    one_pos one_pos one_pos (by norm_num)

/-- C4: for a known mode, estimate_overhead without from_total returns
overhead * ceil(time / block_sec) with block_sec = block_min * 60; in
particular exactly one overhead unit for time in (0, block_sec] and
exactly two units for time in (block_sec, 2*block_sec]. -/
theorem C4_overhead_formula (itc : SCUBA2ITC) (mode : String)
    (info : SCUBA2Mode) (t : ℝ)
    (hm : List.lookup mode itc.data = some info)
    (hB : 0 < info.block_min * 60.0) :
    (0 < t → _estimate_overhead itc mode t false =
      .ok (itc.overhead * (⌈t / (info.block_min * 60.0)⌉ : ℝ))) ∧
    (0 < t → t ≤ info.block_min * 60.0 →
      _estimate_overhead itc mode t false = .ok (itc.overhead * 1)) ∧
    (info.block_min * 60.0 < t → t ≤ 2 * (info.block_min * 60.0) →
      _estimate_overhead itc mode t false = .ok (itc.overhead * 2)) := by
  have hgen : _estimate_overhead itc mode t false =
      .ok (itc.overhead * (⌈t / (info.block_min * 60.0)⌉ : ℝ)) := by
    unfold _estimate_overhead
    rw [hm]
    simp only [Bool.false_eq_true, if_false]
    rw [pydiv_ok _ _ (ne_of_gt hB), ebind_ok]
    rfl
  refine ⟨fun _ => hgen, fun h1 h2 => ?_, fun h1 h2 => ?_⟩
  · have hc : ⌈t / (info.block_min * 60.0)⌉ = 1 := by
      rw [Int.ceil_eq_iff]
      constructor
      · push_cast
        rw [sub_self]
        exact div_pos h1 hB
      · push_cast
        exact (div_le_one hB).mpr h2
    rw [hgen, hc]
    norm_num
  · have hc : ⌈t / (info.block_min * 60.0)⌉ = 2 := by
      rw [Int.ceil_eq_iff]
      constructor
      · push_cast
        have h21 : (2 : ℝ) - 1 = 1 := by norm_num
        rw [h21]
        exact (one_lt_div hB).mpr h1
      · push_cast
        exact (div_le_iff₀ hB).mpr h2
    rw [hgen, hc]
    norm_num

/-- C4 witness: the daisy mode has block_sec = 2400; a time of 2400
costs one overhead unit and a time of 2500 costs two. -/
theorem C4_witness :
    _estimate_overhead defaultITC "daisy" 2400 false = .ok (90.0 * 1) ∧
    _estimate_overhead defaultITC "daisy" 2500 false = .ok (90.0 * 2) := by
  have h1 := C4_overhead_formula defaultITC "daisy"
    ⟨"Daisy: ~3 arcmin map", some ⟨189, -48, some 0.248312⟩,
     some ⟨689, -118, some 0.062124⟩, 40, 6.5, 4.0, true⟩ 2400 rfl (by norm_num)
  have h2 := C4_overhead_formula defaultITC "daisy"
    ⟨"Daisy: ~3 arcmin map", some ⟨189, -48, some 0.248312⟩,
     some ⟨689, -118, some 0.062124⟩, 40, 6.5, 4.0, true⟩ 2500 rfl (by norm_num)
  exact ⟨h1.2.1 (by norm_num) (by norm_num), h2.2.2 (by norm_num) (by norm_num)⟩

/-- C5: for a known mode, calculate_rms_for_total_time recovers the
on-source time as total_time - overhead * ceil(total_time / (block_sec +
overhead)) — the from_total variant extends the block by one overhead
unit — and delegates to calculate_rms_for_time_on_source on that time. -/
theorem C5_total_time_inversion (itc : SCUBA2ITC) (mode : String) (filter_ : ℕ)
    (tau_225 airmass time_tot : ℝ) (sampling_factors : List (ℕ × ℝ))
    (info : SCUBA2Mode)
    (hm : List.lookup mode itc.data = some info)
    (hB : info.block_min * 60.0 + itc.overhead ≠ 0) :
    calculate_rms_for_total_time itc mode filter_ tau_225 airmass
      sampling_factors time_tot false =
    calculate_rms_for_time_on_source itc mode filter_ tau_225 airmass
      sampling_factors
      (time_tot - itc.overhead *
        (⌈time_tot / (info.block_min * 60.0 + itc.overhead)⌉ : ℝ)) false := by
  have hov : _estimate_overhead itc mode time_tot true =
      .ok (itc.overhead *
        (⌈time_tot / (info.block_min * 60.0 + itc.overhead)⌉ : ℝ)) := by
    unfold _estimate_overhead
    rw [hm]
    simp only [if_true]
    rw [pydiv_ok _ _ hB, ebind_ok]
    rfl
  unfold calculate_rms_for_total_time
  rw [hov, ebind_ok]
  cases hd : calculate_rms_for_time_on_source itc mode filter_ tau_225 airmass
      sampling_factors
      (time_tot - itc.overhead *
        (⌈time_tot / (info.block_min * 60.0 + itc.overhead)⌉ : ℝ)) false with
  | ok v =>
    simp only [hd, ebind_ok, Bool.false_eq_true, if_false]
    rfl
  | error e => simp only [hd, ebind_err]

/-- C5 witness: daisy mode, total time 3000 seconds, default overhead
unit of 90 seconds and extended block 2490 seconds. -/
theorem C5_witness :
    calculate_rms_for_total_time defaultITC "daisy" 450 0 0 [(450, 1), (850, 1)]
      3000 false =
    calculate_rms_for_time_on_source defaultITC "daisy" 450 0 0
      [(450, 1), (850, 1)]
      (3000 - 90.0 * (⌈(3000 : ℝ) / (40 * 60.0 + 90.0)⌉ : ℝ)) false :=
  C5_total_time_inversion defaultITC "daisy" 450 0 0 3000 [(450, 1), (850, 1)]
    ⟨"Daisy: ~3 arcmin map", some ⟨189, -48, some 0.248312⟩,
     some ⟨689, -118, some 0.062124⟩, 40, 6.5, 4.0, true⟩ rfl
    (by norm_num [defaultITC])

/-- C6: whenever the try body of calculate_total_time or of
calculate_rms_for_time_on_source fails with a ZeroDivisionError or a
math-domain ValueError, the public operation raises the SCUBA2ITCError
calculation-failed error, with the division-by-zero and
negative-square-root cases distinguished. -/
theorem C6_calc_errors_wrapped (itc : SCUBA2ITC) (mode : String) (filter_ : ℕ)
    (tau_225 airmass rms time_src : ℝ) (sampling_factors : List (ℕ × ℝ))
    (flag : Bool) :
    (calculate_total_time_body itc mode filter_ tau_225 airmass
        sampling_factors rms flag = .error .zeroDivision →
      calculate_total_time itc mode filter_ tau_225 airmass
        sampling_factors rms flag = .error (.itcError .divByZero)) ∧
    (calculate_total_time_body itc mode filter_ tau_225 airmass
        sampling_factors rms flag = .error .mathDomain →
      calculate_total_time itc mode filter_ tau_225 airmass
        sampling_factors rms flag = .error (.itcError .negSqrt)) ∧
    (calculate_rms_for_time_on_source_body itc mode filter_ tau_225 airmass
        sampling_factors time_src flag = .error .zeroDivision →
      calculate_rms_for_time_on_source itc mode filter_ tau_225 airmass
        sampling_factors time_src flag = .error (.itcError .divByZero)) ∧
    (calculate_rms_for_time_on_source_body itc mode filter_ tau_225 airmass
        sampling_factors time_src flag = .error .mathDomain →
      calculate_rms_for_time_on_source itc mode filter_ tau_225 airmass
        sampling_factors time_src flag = .error (.itcError .negSqrt)) := by
  refine ⟨fun h => ?_, fun h => ?_, fun h => ?_, fun h => ?_⟩
  · unfold calculate_total_time
    rw [h]
    rfl
  · unfold calculate_total_time
    rw [h]
    rfl
  · unfold calculate_rms_for_time_on_source
    rw [h]
    rfl
  · unfold calculate_rms_for_time_on_source
    rw [h]
    rfl

/-- C6 witness: with synthetic tables whose tau relations carry a c
coefficient, a zero rms (division by zero) and a negative tau_225
(negative square root) in calculate_total_time, and a zero and a
negative time on source in calculate_rms_for_time_on_source, all
surface as the wrapped SCUBA2ITCError. -/
theorem C6_witness :
    calculate_total_time testITC "m" 450 0 0 [(450, 1), (850, 1)] 0 false =
      .error (.itcError .divByZero) ∧
    calculate_total_time testITC "m" 450 (-1) 0 [(450, 1), (850, 1)] 1 false =
      .error (.itcError .negSqrt) ∧
    calculate_rms_for_time_on_source testITC "m" 450 0 0 [(450, 1), (850, 1)] 0
      false = .error (.itcError .divByZero) ∧
    calculate_rms_for_time_on_source testITC "m" 450 0 0 [(450, 1), (850, 1)]
      (-1) false = .error (.itcError .negSqrt) := by
  have hb1 : calculate_total_time_body testITC "m" 450 0 0 [(450, 1), (850, 1)]
      0 false = .error .zeroDivision := by
    simp [calculate_total_time_body, _calculate_opacity_and_transmission,
      _calculate_opacity, _calculate_transmission, _calculate_time_on_source,
      _get_param, dictGet, pydiv, pysqrt, testITC, testMode, testTau, testParam,
      List.lookup, ebind_ok, ebind_err, Real.sqrt_zero, Real.exp_zero]
  have hb2 : calculate_total_time_body testITC "m" 450 (-1) 0
      [(450, 1), (850, 1)] 1 false = .error .mathDomain := by
    simp [calculate_total_time_body, _calculate_opacity_and_transmission,
      _calculate_opacity, testITC, testTau, List.lookup, ebind_ok, ebind_err]
  have hb3 : calculate_rms_for_time_on_source_body testITC "m" 450 0 0
      [(450, 1), (850, 1)] 0 false = .error .zeroDivision := by
    simp [calculate_rms_for_time_on_source_body,
      _calculate_opacity_and_transmission, _calculate_opacity,
      _calculate_transmission, _calculate_rms_for_time_on_source, _get_param,
      dictGet, pydiv, pysqrt, testITC, testMode, testTau, testParam,
      List.lookup, ebind_ok, ebind_err, Real.sqrt_zero, Real.exp_zero]
  have hb4 : calculate_rms_for_time_on_source_body testITC "m" 450 0 0
      [(450, 1), (850, 1)] (-1) false = .error .mathDomain := by
    simp [calculate_rms_for_time_on_source_body,
      _calculate_opacity_and_transmission, _calculate_opacity,
      _calculate_transmission, _calculate_rms_for_time_on_source, _get_param,
      dictGet, pydiv, pysqrt, testITC, testMode, testTau, testParam,
      List.lookup, ebind_ok, ebind_err, Real.sqrt_zero, Real.exp_zero]
  exact ⟨(C6_calc_errors_wrapped testITC "m" 450 0 0 0 0 [(450, 1), (850, 1)]
            false).1 hb1,
         (C6_calc_errors_wrapped testITC "m" 450 (-1) 0 1 0 [(450, 1), (850, 1)]
            false).2.1 hb2,
         (C6_calc_errors_wrapped testITC "m" 450 0 0 0 0 [(450, 1), (850, 1)]
            false).2.2.1 hb3,
         (C6_calc_errors_wrapped testITC "m" 450 0 0 0 (-1) [(450, 1), (850, 1)]
            false).2.2.2 hb4⟩

/-- Helper: when both tau relations carry a c coefficient and tau_225 is
non-negative, the opacity/transmission step succeeds and has the
documented shape. -/
theorem oat_ok (itc : SCUBA2ITC) (tau_225 airmass : ℝ)
    (r850 r450 : TauRelation) (c850 c450 : ℝ)
    (h850 : List.lookup 850 itc.tau_relations = some r850)
    (hc850 : r850.c = some c850)
    (h450 : List.lookup 450 itc.tau_relations = some r450)
    (hc450 : r450.c = some c450)
    (htau : 0 ≤ tau_225) :
    ∃ t850 t450,
      _calculate_opacity_and_transmission itc tau_225 airmass =
        .ok ([(850, t850), (450, t450)],
             [(850, _calculate_transmission airmass t850),
              (450, _calculate_transmission airmass t450)],
             [("tau_850", t850),
              ("trans_850", _calculate_transmission airmass t850),
              ("tau_450", t450),
              ("trans_450", _calculate_transmission airmass t450)]) := by
  refine ⟨r850.a * (tau_225 + r850.b + c850 * Real.sqrt tau_225),
          r450.a * (tau_225 + r450.b + c450 * Real.sqrt tau_225), ?_⟩
  unfold _calculate_opacity_and_transmission _calculate_opacity
  simp only [h850, hc850, h450, hc450, if_neg (not_lt.mpr htau), ebind_ok]
  rfl

/-- Helper: the time-on-source computation fails with the unknown-mode
error for a mode absent from the table, whatever the numeric inputs. -/
theorem time_on_source_unknown_mode (itc : SCUBA2ITC) (mode : String)
    (filter_ : ℕ) (x y z : ℝ)
    (hm : List.lookup mode itc.data = none) :
    _calculate_time_on_source itc mode filter_ x y z =
      .error (.itcError (.unknownMode mode)) := by
  unfold _calculate_time_on_source _get_param
  rw [hm]
  rfl

/-- Helper: the rms computation fails with the unknown-mode error for a
mode absent from the table, whatever the numeric inputs. -/
theorem rms_unknown_mode (itc : SCUBA2ITC) (mode : String)
    (filter_ : ℕ) (x y z : ℝ)
    (hm : List.lookup mode itc.data = none) :
    _calculate_rms_for_time_on_source itc mode filter_ x y z =
      .error (.itcError (.unknownMode mode)) := by
  unfold _calculate_rms_for_time_on_source _get_param
  rw [hm]
  rfl

/-- C7 counterexample: with the default construction, an unknown mode
name given to calculate_total_time surfaces as AttributeError (raised by
the opacity step, which runs before the mode lookup), not as the
unknown-mode SCUBA2ITCError the claim requires. -/
theorem C7_counterexample :
    calculate_total_time defaultITC "nosuchmode" 450 0.05 1.2
      [(450, 4), (850, 4)] 45 false = .error .attributeError ∧
    calculate_total_time defaultITC "nosuchmode" 450 0.05 1.2
      [(450, 4), (850, 4)] 45 false ≠
      .error (.itcError (.unknownMode "nosuchmode")) := by
  constructor
  · rfl
  · intro h
    rw [show calculate_total_time defaultITC "nosuchmode" 450 0.05 1.2
          [(450, 4), (850, 4)] 45 false = .error .attributeError from rfl] at h
    simp at h

/-- C7 amended: for a mode name absent from the table,
calculate_rms_for_total_time raises the unknown-mode error
unconditionally (its overhead estimate looks the mode up first);
calculate_total_time and calculate_rms_for_time_on_source raise it
provided the opacity/transmission step can succeed (both tau relations
define a c coefficient and tau_225 is non-negative) and the requested
filter is 450 or 850 with a sampling factor present; with the default
tables those two entry points instead raise AttributeError from the
opacity step (the missing-c bug), for any mode name and any inputs. -/
theorem C7_unknown_mode_amended (itc : SCUBA2ITC) (mode : String) (filter_ : ℕ)
    (tau_225 airmass rms time_src time_tot : ℝ)
    (sampling_factors : List (ℕ × ℝ)) (flag : Bool)
    (hm : List.lookup mode itc.data = none) :
    calculate_rms_for_total_time itc mode filter_ tau_225 airmass
      sampling_factors time_tot flag = .error (.itcError (.unknownMode mode)) ∧
    (∀ r850 r450 : TauRelation, ∀ c850 c450 : ℝ,
      List.lookup 850 itc.tau_relations = some r850 → r850.c = some c850 →
      List.lookup 450 itc.tau_relations = some r450 → r450.c = some c450 →
      0 ≤ tau_225 → (filter_ = 450 ∨ filter_ = 850) →
      (List.lookup filter_ sampling_factors).isSome = true →
      calculate_total_time itc mode filter_ tau_225 airmass
        sampling_factors rms flag = .error (.itcError (.unknownMode mode)) ∧
      calculate_rms_for_time_on_source itc mode filter_ tau_225 airmass
        sampling_factors time_src flag =
        .error (.itcError (.unknownMode mode))) ∧
    calculate_total_time defaultITC mode filter_ tau_225 airmass
      sampling_factors rms flag = .error .attributeError ∧
    calculate_rms_for_time_on_source defaultITC mode filter_ tau_225 airmass
      sampling_factors time_src flag = .error .attributeError := by
  refine ⟨?_, ?_, rfl, rfl⟩
  · have hov : _estimate_overhead itc mode time_tot true =
        .error (.itcError (.unknownMode mode)) := by
      unfold _estimate_overhead
      rw [hm]
    unfold calculate_rms_for_total_time
    rw [hov, ebind_err]
  · intro r850 r450 c850 c450 h850 hc850 h450 hc450 htau hf hs
    obtain ⟨t850, t450, hoat⟩ :=
      oat_ok itc tau_225 airmass r850 r450 c850 c450 h850 hc850 h450 hc450 htau
    obtain ⟨v, hv⟩ := Option.isSome_iff_exists.mp hs
    have htotbody : calculate_total_time_body itc mode filter_ tau_225 airmass
        sampling_factors rms flag = .error (.itcError (.unknownMode mode)) := by
      unfold calculate_total_time_body
      rcases hf with rfl | rfl <;>
        simp [hoat, hv, dictGet, List.lookup, ebind_ok, ebind_err,
          time_on_source_unknown_mode itc mode _ _ _ _ hm]
    have hrmsbody : calculate_rms_for_time_on_source_body itc mode filter_
        tau_225 airmass sampling_factors time_src flag =
        .error (.itcError (.unknownMode mode)) := by
      unfold calculate_rms_for_time_on_source_body
      rcases hf with rfl | rfl <;>
        simp [hoat, hv, dictGet, List.lookup, ebind_ok, ebind_err,
          rms_unknown_mode itc mode _ _ _ _ hm]
    constructor
    · unfold calculate_total_time
      rw [htotbody]
      rfl
    · unfold calculate_rms_for_time_on_source
      rw [hrmsbody]
      rfl

/-- C7 witness: the absent mode name "ghost", against the synthetic
tables (whose tau relations do define c) for the unknown-mode
conclusions and against the default tables for the AttributeError
conclusions. -/
theorem C7_witness :
    calculate_rms_for_total_time testITC "ghost" 450 0 0 [(450, 1), (850, 1)]
      100 false = .error (.itcError (.unknownMode "ghost")) ∧
    calculate_total_time testITC "ghost" 450 0 0 [(450, 1), (850, 1)]
      1 false = .error (.itcError (.unknownMode "ghost")) ∧
    calculate_rms_for_time_on_source testITC "ghost" 450 0 0
      [(450, 1), (850, 1)] 1 false = .error (.itcError (.unknownMode "ghost")) ∧
    calculate_total_time defaultITC "ghost" 450 0 0 [(450, 1), (850, 1)]
      1 false = .error .attributeError ∧
    calculate_rms_for_time_on_source defaultITC "ghost" 450 0 0
      [(450, 1), (850, 1)] 1 false = .error .attributeError := by
  have h := C7_unknown_mode_amended testITC "ghost" 450 0 0 1 1 100
    [(450, 1), (850, 1)] false rfl
  have h2 := h.2.1 ⟨1, 0, some 0⟩ ⟨1, 0, some 0⟩ 0 0 rfl rfl rfl rfl le_rfl
    (Or.inl rfl) rfl
  exact ⟨h.1, h2.1, h2.2, h.2.2.1, h.2.2.2⟩

/-- C8: a mode present in the table whose parameter record for the
requested filter is None makes both the time and the rms computations
raise the parameters-unavailable error (no null dereference). -/
theorem C8_params_unavailable (itc : SCUBA2ITC) (mode : String)
    (info : SCUBA2Mode) (filter_ : ℕ) (transmission factor rms time : ℝ)
    (hm : List.lookup mode itc.data = some info)
    (h : (filter_ = 850 ∧ info.param_850 = none) ∨
         (filter_ = 450 ∧ info.param_450 = none)) :
    _calculate_time_on_source itc mode filter_ transmission factor rms =
      .error (.itcError .paramsUnavailable) ∧
    _calculate_rms_for_time_on_source itc mode filter_ transmission factor time =
      .error (.itcError .paramsUnavailable) := by
  have hgp : _get_param itc mode filter_ = .error (.itcError .paramsUnavailable) := by
    unfold _get_param
    rcases h with ⟨rfl, hp⟩ | ⟨rfl, hp⟩ <;> simp [hm, hp]
  constructor
  · unfold _calculate_time_on_source
    rw [hgp]
    rfl
  · unfold _calculate_rms_for_time_on_source
    rw [hgp]
    rfl

/-- C8 witness: a synthetic polarimetry-like mode whose 450 parameter
record is None. -/
theorem C8_witness :
    _calculate_time_on_source polTestITC "pol" 450 1 1 1 =
      .error (.itcError .paramsUnavailable) ∧
    _calculate_rms_for_time_on_source polTestITC "pol" 450 1 1 1 =
      .error (.itcError .paramsUnavailable) :=
  C8_params_unavailable polTestITC "pol" polTestMode 450 1 1 1 1 rfl
    (Or.inr ⟨rfl, rfl⟩)

/-- Helper: a successful opacity/transmission step always produces the
four-key extra dictionary and the two-filter transmission dictionary. -/
theorem oat_shape (itc : SCUBA2ITC) (tau_225 airmass : ℝ)
    (taud trans : List (ℕ × ℝ)) (extra0 : List (String × ℝ))
    (h : _calculate_opacity_and_transmission itc tau_225 airmass =
      .ok (taud, trans, extra0)) :
    ∃ t850 t450,
      trans = [(850, _calculate_transmission airmass t850),
               (450, _calculate_transmission airmass t450)] ∧
      extra0 = [("tau_850", t850),
                ("trans_850", _calculate_transmission airmass t850),
                ("tau_450", t450),
                ("trans_450", _calculate_transmission airmass t450)] := by
  unfold _calculate_opacity_and_transmission at h
  cases h850 : _calculate_opacity itc 850 tau_225 with
  | error e =>
    rw [h850, ebind_err] at h
    exact Except.noConfusion h
  | ok a =>
    simp only [h850, ebind_ok] at h
    cases h450 : _calculate_opacity itc 450 tau_225 with
    | error e =>
      rw [h450, ebind_err] at h
      exact Except.noConfusion h
    | ok b =>
      simp only [h450, ebind_ok, pure, Except.pure, Except.ok.injEq,
        Prod.mk.injEq] at h
      exact ⟨a, b, h.2.1.symm, h.2.2.symm⟩

/-- Helper: inversion of a successful extra-free run of the public rms
computation, giving the corresponding extra-enabled run. -/
theorem rms_run_inversion (itc : SCUBA2ITC) (mode : String) (filter_ : ℕ)
    (tau_225 airmass time_src rms_val : ℝ) (sampling_factors : List (ℕ × ℝ))
    (o : Option (List (String × ℝ)))
    (h : calculate_rms_for_time_on_source itc mode filter_ tau_225 airmass
      sampling_factors time_src false = .ok (rms_val, o)) :
    ∃ taud trans extra0,
      _calculate_opacity_and_transmission itc tau_225 airmass =
        .ok (taud, trans, extra0) ∧
      calculate_rms_for_time_on_source itc mode filter_ tau_225 airmass
        sampling_factors time_src true =
        .ok (rms_val, some (addAltRms itc mode filter_ trans sampling_factors
          time_src extra0)) := by
  unfold calculate_rms_for_time_on_source at h ⊢
  rw [handleCalcErrors_ok] at h
  unfold calculate_rms_for_time_on_source_body at h ⊢
  cases hoat : _calculate_opacity_and_transmission itc tau_225 airmass with
  | error e =>
    rw [hoat, ebind_err] at h
    exact Except.noConfusion h
  | ok trip =>
    obtain ⟨taud, trans, extra0⟩ := trip
    simp only [hoat, ebind_ok] at h ⊢
    cases htf : dictGet trans filter_ with
    | error e =>
      rw [htf, ebind_err] at h
      exact Except.noConfusion h
    | ok trans_f =>
      simp only [htf, ebind_ok] at h ⊢
      cases hsf : dictGet sampling_factors filter_ with
      | error e =>
        rw [hsf, ebind_err] at h
        exact Except.noConfusion h
      | ok factor_f =>
        simp only [hsf, ebind_ok] at h ⊢
        cases hr : _calculate_rms_for_time_on_source itc mode filter_ trans_f
            factor_f time_src with
        | error e =>
          rw [hr, ebind_err] at h
          exact Except.noConfusion h
        | ok r =>
          simp only [hr, ebind_ok, Bool.false_eq_true, if_false, pure,
            Except.pure, Except.ok.injEq, Prod.mk.injEq] at h
          refine ⟨taud, trans, extra0, rfl, ?_⟩
          simp only [if_true, ebind_ok, h.1, pure, Except.pure, handleCalcErrors]

/-- Helper: inversion of a successful extra-free run of
calculate_total_time, giving the corresponding extra-enabled run. -/
theorem total_run_inversion (itc : SCUBA2ITC) (mode : String) (filter_ : ℕ)
    (tau_225 airmass rms_in tot : ℝ) (sampling_factors : List (ℕ × ℝ))
    (o : Option (List (String × ℝ)))
    (h : calculate_total_time itc mode filter_ tau_225 airmass
      sampling_factors rms_in false = .ok (tot, o)) :
    ∃ taud trans extra0 tsrc,
      _calculate_opacity_and_transmission itc tau_225 airmass =
        .ok (taud, trans, extra0) ∧
      calculate_total_time itc mode filter_ tau_225 airmass
        sampling_factors rms_in true =
        .ok (tot, some (addAltRms itc mode filter_ trans sampling_factors tsrc
          (dictSet extra0 "time_src" tsrc))) := by
  unfold calculate_total_time at h ⊢
  rw [handleCalcErrors_ok] at h
  unfold calculate_total_time_body at h ⊢
  cases hoat : _calculate_opacity_and_transmission itc tau_225 airmass with
  | error e =>
    rw [hoat, ebind_err] at h
    exact Except.noConfusion h
  | ok trip =>
    obtain ⟨taud, trans, extra0⟩ := trip
    simp only [hoat, ebind_ok] at h ⊢
    cases htf : dictGet trans filter_ with
    | error e =>
      rw [htf, ebind_err] at h
      exact Except.noConfusion h
    | ok trans_f =>
      simp only [htf, ebind_ok] at h ⊢
      cases hsf : dictGet sampling_factors filter_ with
      | error e =>
        rw [hsf, ebind_err] at h
        exact Except.noConfusion h
      | ok factor_f =>
        simp only [hsf, ebind_ok] at h ⊢
        cases hts : _calculate_time_on_source itc mode filter_ trans_f
            factor_f rms_in with
        | error e =>
          rw [hts, ebind_err] at h
          exact Except.noConfusion h
        | ok tsrc =>
          simp only [hts, ebind_ok] at h ⊢
          cases hoh : _estimate_overhead itc mode tsrc false with
          | error e =>
            rw [hoh, ebind_err] at h
            exact Except.noConfusion h
          | ok oh =>
            simp only [hoh, ebind_ok, Bool.false_eq_true, if_false, pure,
              Except.pure, Except.ok.injEq, Prod.mk.injEq] at h
            refine ⟨taud, trans, extra0, tsrc, rfl, ?_⟩
            simp only [if_true, ebind_ok, h.1, pure, Except.pure, handleCalcErrors]

/-- Helper: the internal transmission dictionary always has both filter
keys, so the alternate-filter subscript on it succeeds. -/
theorem dictGet_altFilter (x y : ℝ) (filter_ : ℕ) :
    dictGet [(850, x), (450, y)] (altFilter filter_) =
      .ok (if filter_ = 450 then x else y) := by
  unfold altFilter
  by_cases h : filter_ = 450 <;> simp [h, dictGet, List.lookup]

/-- C9: whenever a primary computation succeeds, the extra-enabled run of
the same operation succeeds with the identical primary scalar, and a
failure of the auxiliary alternate-band rms computation leaves the
rms_alt key out of the extra output without being propagated. -/
theorem C9_aux_failure_swallowed (itc : SCUBA2ITC) (mode : String)
    (filter_ : ℕ) (tau_225 airmass time_src rms_in rms_val tot : ℝ)
    (sampling_factors : List (ℕ × ℝ)) :
    (calculate_rms_for_time_on_source itc mode filter_ tau_225 airmass
        sampling_factors time_src false = .ok (rms_val, none) →
      ∃ taud trans extra0,
        _calculate_opacity_and_transmission itc tau_225 airmass =
          .ok (taud, trans, extra0) ∧
        calculate_rms_for_time_on_source itc mode filter_ tau_225 airmass
          sampling_factors time_src true =
          .ok (rms_val, some (addAltRms itc mode filter_ trans sampling_factors
            time_src extra0)) ∧
        (∀ e, altRmsCalc itc mode filter_ trans sampling_factors time_src =
            .error e →
          List.lookup "rms_alt" (addAltRms itc mode filter_ trans
            sampling_factors time_src extra0) = none)) ∧
    (calculate_total_time itc mode filter_ tau_225 airmass sampling_factors
        rms_in false = .ok (tot, none) →
      ∃ taud trans extra0 tsrc,
        _calculate_opacity_and_transmission itc tau_225 airmass =
          .ok (taud, trans, extra0) ∧
        calculate_total_time itc mode filter_ tau_225 airmass sampling_factors
          rms_in true =
          .ok (tot, some (addAltRms itc mode filter_ trans sampling_factors tsrc
            (dictSet extra0 "time_src" tsrc))) ∧
        (∀ e, altRmsCalc itc mode filter_ trans sampling_factors tsrc =
            .error e →
          List.lookup "rms_alt" (addAltRms itc mode filter_ trans
            sampling_factors tsrc (dictSet extra0 "time_src" tsrc)) = none)) := by
  constructor
  · intro h
    obtain ⟨taud, trans, extra0, hoat, htrue⟩ :=
      rms_run_inversion itc mode filter_ tau_225 airmass time_src rms_val
        sampling_factors none h
    refine ⟨taud, trans, extra0, hoat, htrue, fun e he => ?_⟩
    obtain ⟨t850, t450, htr, hex⟩ :=
      oat_shape itc tau_225 airmass taud trans extra0 hoat
    subst hex
    simp only [addAltRms, he]
    simp [dictSet, List.lookup]
  · intro h
    obtain ⟨taud, trans, extra0, tsrc, hoat, htrue⟩ :=
      total_run_inversion itc mode filter_ tau_225 airmass rms_in tot
        sampling_factors none h
    refine ⟨taud, trans, extra0, tsrc, hoat, htrue, fun e he => ?_⟩
    obtain ⟨t850, t450, htr, hex⟩ :=
      oat_shape itc tau_225 airmass taud trans extra0 hoat
    subst hex
    simp only [addAltRms, he]
    simp [dictSet, List.lookup]

/-- Helper: lookup facts for the synthetic tables. -/
theorem testITC_lookups :
    List.lookup "m" testITC.data = some testMode ∧
    List.lookup 850 testITC.tau_relations = some testTau ∧
    List.lookup 450 testITC.tau_relations = some testTau :=
  ⟨rfl, rfl, rfl⟩

/-- Helper: the overhead estimate for one second of on-source time in
the synthetic mode is a single 90-second overhead unit. -/
theorem testOverheadEval : _estimate_overhead testITC "m" 1 false = .ok 90 := by
  have h1 : ((40 : ℝ)) * 60.0 = 2400 := by norm_num
  have hc : ⌈((2400 : ℝ))⁻¹⌉ = 1 := by
    rw [Int.ceil_eq_iff]
    constructor <;> norm_num
  simp [_estimate_overhead, testITC, testMode, List.lookup, pydiv, h1, hc]

/-- Helper: concrete extra-free rms evaluation on the synthetic tables
(tau_225 = 0, airmass = 0, unit sampling factor, one second on
source). -/
theorem testRmsEval :
    calculate_rms_for_time_on_source testITC "m" 450 0 0 [(450, 1)] 1 false =
      .ok (1, none) := by
  simp [calculate_rms_for_time_on_source, calculate_rms_for_time_on_source_body,
    _calculate_opacity_and_transmission, _calculate_opacity,
    _calculate_transmission, _calculate_rms_for_time_on_source, _get_param,
    dictGet, pydiv, pysqrt, testITC, testMode, testTau, testParam, List.lookup,
    ebind_ok, ebind_err, Real.sqrt_zero, Real.exp_zero, Real.sqrt_one,
    handleCalcErrors]
  norm_num [pysqrt, pydiv, Except.map, ebind_ok, ebind_err, handleCalcErrors,
    Real.sqrt_one]

/-- Helper: concrete extra-free total-time evaluation on the synthetic
tables: one second on source plus one 90-second overhead unit. -/
theorem testTotalEval :
    calculate_total_time testITC "m" 450 0 0 [(450, 1)] 1 false =
      .ok (91, none) := by
  have hlm : List.lookup "m" testITC.data = some testMode := rfl
  have hl850 : List.lookup 850 testITC.tau_relations = some testTau := rfl
  have hl450 : List.lookup 450 testITC.tau_relations = some testTau := rfl
  simp [calculate_total_time, calculate_total_time_body,
    _calculate_opacity_and_transmission, _calculate_opacity,
    _calculate_transmission, _calculate_time_on_source, _get_param,
    dictGet, pydiv, pysqrt, hlm, hl850, hl450, testMode, testTau, testParam,
    List.lookup, ebind_ok, ebind_err, Real.sqrt_zero, Real.exp_zero,
    testOverheadEval, handleCalcErrors]
  norm_num

/-- C9 witness: synthetic tables with a sampling-factor mapping that
lacks the 850 entry, so the auxiliary alternate-band computation fails
while both primary computations succeed. -/
theorem C9_witness :
    calculate_rms_for_time_on_source testITC "m" 450 0 0 [(450, 1)] 1 false =
      .ok (1, none) ∧
    (∃ taud trans extra0,
      _calculate_opacity_and_transmission testITC 0 0 = .ok (taud, trans, extra0) ∧
      calculate_rms_for_time_on_source testITC "m" 450 0 0 [(450, 1)] 1 true =
        .ok (1, some (addAltRms testITC "m" 450 trans [(450, 1)] 1 extra0)) ∧
      (∀ e, altRmsCalc testITC "m" 450 trans [(450, 1)] 1 = .error e →
        List.lookup "rms_alt"
          (addAltRms testITC "m" 450 trans [(450, 1)] 1 extra0) = none)) ∧
    calculate_total_time testITC "m" 450 0 0 [(450, 1)] 1 false =
      .ok (91, none) ∧
    (∃ taud trans extra0 tsrc,
      _calculate_opacity_and_transmission testITC 0 0 = .ok (taud, trans, extra0) ∧
      calculate_total_time testITC "m" 450 0 0 [(450, 1)] 1 true =
        .ok (91, some (addAltRms testITC "m" 450 trans [(450, 1)] tsrc
          (dictSet extra0 "time_src" tsrc))) ∧
      (∀ e, altRmsCalc testITC "m" 450 trans [(450, 1)] tsrc = .error e →
        List.lookup "rms_alt" (addAltRms testITC "m" 450 trans [(450, 1)] tsrc
          (dictSet extra0 "time_src" tsrc)) = none)) :=
  ⟨testRmsEval,
   (C9_aux_failure_swallowed testITC "m" 450 0 0 1 1 1 91 [(450, 1)]).1
     testRmsEval,
   testTotalEval,
   (C9_aux_failure_swallowed testITC "m" 450 0 0 1 1 1 91 [(450, 1)]).2
     testTotalEval⟩

/-- C10: when the sampling-factor mapping lacks an entry for the
alternate filter (a KeyError, not a defined calculation error), an
extra-enabled run whose primary computation succeeds still returns the
primary result, and its extra output contains the wl_alt key but no
rms_alt key. -/
theorem C10_wl_alt_key_without_rms_alt (itc : SCUBA2ITC) (mode : String)
    (filter_ : ℕ) (tau_225 airmass time_src rms_in rms_val tot : ℝ)
    (sampling_factors : List (ℕ × ℝ))
    (hs : List.lookup (altFilter filter_) sampling_factors = none) :
    (calculate_rms_for_time_on_source itc mode filter_ tau_225 airmass
        sampling_factors time_src false = .ok (rms_val, none) →
      ∃ extra,
        calculate_rms_for_time_on_source itc mode filter_ tau_225 airmass
          sampling_factors time_src true = .ok (rms_val, some extra) ∧
        List.lookup "wl_alt" extra = some ((altFilter filter_ : ℕ) : ℝ) ∧
        List.lookup "rms_alt" extra = none) ∧
    (calculate_total_time itc mode filter_ tau_225 airmass sampling_factors
        rms_in false = .ok (tot, none) →
      ∃ extra,
        calculate_total_time itc mode filter_ tau_225 airmass sampling_factors
          rms_in true = .ok (tot, some extra) ∧
        List.lookup "wl_alt" extra = some ((altFilter filter_ : ℕ) : ℝ) ∧
        List.lookup "rms_alt" extra = none) := by
  constructor
  · intro h
    obtain ⟨taud, trans, extra0, hoat, htrue⟩ :=
      rms_run_inversion itc mode filter_ tau_225 airmass time_src rms_val
        sampling_factors none h
    obtain ⟨t850, t450, htr, hex⟩ :=
      oat_shape itc tau_225 airmass taud trans extra0 hoat
    subst htr
    subst hex
    have haux : altRmsCalc itc mode filter_
        [(850, _calculate_transmission airmass t850),
         (450, _calculate_transmission airmass t450)] sampling_factors
        time_src = .error (.keyError (altFilter filter_)) := by
      unfold altRmsCalc
      rw [dictGet_altFilter, ebind_ok]
      unfold dictGet
      rw [hs]
      rfl
    refine ⟨_, htrue, ?_, ?_⟩
    · simp only [addAltRms, haux]
      simp [dictSet, List.lookup]
    · simp only [addAltRms, haux]
      simp [dictSet, List.lookup]
  · intro h
    obtain ⟨taud, trans, extra0, tsrc, hoat, htrue⟩ :=
      total_run_inversion itc mode filter_ tau_225 airmass rms_in tot
        sampling_factors none h
    obtain ⟨t850, t450, htr, hex⟩ :=
      oat_shape itc tau_225 airmass taud trans extra0 hoat
    subst htr
    subst hex
    have haux : altRmsCalc itc mode filter_
        [(850, _calculate_transmission airmass t850),
         (450, _calculate_transmission airmass t450)] sampling_factors
        tsrc = .error (.keyError (altFilter filter_)) := by
      unfold altRmsCalc
      rw [dictGet_altFilter, ebind_ok]
      unfold dictGet
      rw [hs]
      rfl
    refine ⟨_, htrue, ?_, ?_⟩
    · simp only [addAltRms, haux]
      simp [dictSet, List.lookup]
    · simp only [addAltRms, haux]
      simp [dictSet, List.lookup]

/-- C10 witness: filter 450 with sampling factors defined only for 450,
so the alternate filter 850 has no sampling entry. -/
theorem C10_witness :
    List.lookup (altFilter 450) [(450, (1 : ℝ))] = none ∧
    (∃ extra,
      calculate_rms_for_time_on_source testITC "m" 450 0 0 [(450, 1)] 1 true =
        .ok (1, some extra) ∧
      List.lookup "wl_alt" extra = some ((altFilter 450 : ℕ) : ℝ) ∧
      List.lookup "rms_alt" extra = none) ∧
    (∃ extra,
      calculate_total_time testITC "m" 450 0 0 [(450, 1)] 1 true =
        .ok (91, some extra) ∧
      List.lookup "wl_alt" extra = some ((altFilter 450 : ℕ) : ℝ) ∧
      List.lookup "rms_alt" extra = none) :=
  ⟨rfl,
   (C10_wl_alt_key_without_rms_alt testITC "m" 450 0 0 1 1 1 91 [(450, 1)]
     rfl).1 testRmsEval,
   (C10_wl_alt_key_without_rms_alt testITC "m" 450 0 0 1 1 1 91 [(450, 1)]
     rfl).2 testTotalEval⟩

end SCUBA2
